import Mathlib

/-!
Shallow embedding of src/podcastfy/core/podcast.py and the claims about it.

Conventions used throughout:
* Python exceptions are modelled by the type PyErr; an operation that can
  mutate the Podcast object and possibly raise returns Podcast × Option PyErr
  (the object state after the call, and the raised error if any), because a
  Python exception leaves every mutation performed so far in place.
* Python object identity on TranscriptSegment (the class defines no custom
  equality, so list.index and == compare by identity) is modelled by the
  field uid: two segment values denote the same Python object exactly when
  their uid fields agree, and callers that create fresh objects create fresh
  uids.
* External collaborators (LLM backend, TTS backend, pydub decoding) are
  modelled as pure functions collected in the structure Env; the
  nondeterministic completion order of the concurrent synthesis calls is the
  list of submitted-future indices Env.order.
* Nonterminating loops (finalize runs while _build_next_stage keeps returning
  True) are modelled with explicit fuel; a result of none means the loop did
  not terminate within the given fuel, and a statement proved for every fuel
  value shows divergence.
-/

/-- Pipeline states, from class PodcastState (podcast.py lines 13 to 18). -/
inductive PodcastState
  | INITIALIZED
  | TRANSCRIPT_BUILT
  | AUDIO_SEGMENTS_BUILT
  | STITCHED
deriving DecidableEq, Repr

/-- Numeric value of each enum member, as declared in the source. -/
def PodcastState.value : PodcastState → Nat
  | .INITIALIZED => 0
  | .TRANSCRIPT_BUILT => 1
  | .AUDIO_SEGMENTS_BUILT => 2
  | .STITCHED => 3

/-- TranscriptSegment (podcast.py lines 68 to 74); uid is the object-identity
surrogate described in the file header. -/
structure TranscriptSegment where
  text : String
  speaker : String
  ttsArgs : List (String × String)
  uid : Nat
deriving DecidableEq, Repr

/-- Transcript (podcast.py lines 77 to 82). -/
structure Transcript where
  segments : List TranscriptSegment
  metadata : List (String × String)
deriving DecidableEq, Repr

/-- AudioSegment (podcast.py lines 100 to 107). The lazily loaded pydub value
is not stored: the audio property is modelled by audioProp below. -/
structure AudioSegment where
  filepath : String
  lengthMs : Nat
  transcriptSegment : Option TranscriptSegment
deriving DecidableEq, Repr

/-- Value of the Podcast.audio attribute after stitching. The source computes
sum(list-of-pydub-segments), which is the Python integer 0 when the list is
empty (sum starts from 0 and the pydub radd hook only replaces a leading 0),
and a pydub segment otherwise, modelled here by its length in ms. -/
inductive PyAudio
  | pyInt (n : Int)
  | pydub (ms : Nat)
deriving DecidableEq, Repr

/-- Python truthiness of a PyAudio value: integer 0 is falsy, a pydub segment
is falsy when its length is 0 (pydub defines len). -/
def pyTruthy : PyAudio → Bool
  | .pyInt n => n != 0
  | .pydub ms => ms != 0

/-- Errors raised by the embedded code. -/
inductive PyErr
  | keyError
  | typeError (msg : String)
  | valueError (msg : String)
  | attributeError (msg : String)
  | backendError (msg : String)
deriving DecidableEq, Repr

/-- Mutable attributes of a Podcast object (podcast.py lines 145 to 181). The
backend objects themselves are immutable and modelled outside the state, in
Env; the two booleans cache is_async and has_sync_and_async of the TTS
backend, mirroring lines 171 to 172 and the branch on line 236. -/
structure Podcast where
  content : String
  defaultTtsNJobs : Int
  state : PodcastState
  reworking : Bool
  transcript : Option Transcript
  audioSegments : List AudioSegment
  audio : Option PyAudio
  ttsIsAsync : Bool
  ttsHasAsync : Bool
deriving DecidableEq, Repr

/-- The three stage-transition methods of Podcast. -/
inductive StageMethod
  | buildTranscriptM
  | buildAudioSegmentsM
  | stitchAudioSegmentsM
deriving DecidableEq, Repr

/-- A Python callable as compared inside the podcast_stage wrapper
(podcast.py lines 125 to 132). The dict _next_stage_methods holds bound
methods whose underlying function is the decorated wrapper, while the
closure variable func is the undecorated function; a bound method and a
plain function are never equal in Python, so the two constructors are kept
distinct and derived equality makes boundMethod m and rawFunction m unequal,
exactly as in the source. -/
inductive PyCallable
  | boundMethod (m : StageMethod)
  | rawFunction (m : StageMethod)
deriving DecidableEq, Repr

/-- Items of the dict self._next_stage_methods (podcast.py lines 177 to 181):
each pipeline state below STITCHED maps to the bound stage method that leaves
it. -/
def nextStageItems : List (PodcastState × PyCallable) :=
  [(.INITIALIZED, .boundMethod .buildTranscriptM),
   (.TRANSCRIPT_BUILT, .boundMethod .buildAudioSegmentsM),
   (.AUDIO_SEGMENTS_BUILT, .boundMethod .stitchAudioSegmentsM)]

/-- Dict lookup self._next_stage_methods[self.state] (podcast.py line 125);
none models the KeyError raised for STITCHED, which has no entry. -/
def lookupNextMethod (s : PodcastState) : Option PyCallable :=
  (nextStageItems.find? (fun e => e.1 == s)).map (fun e => e.2)

/-- The generator search on podcast.py line 132: next((state for state,
method in items if method == func), None). The scanned values are bound
methods and func is the undecorated function, so the comparison never
succeeds and the result is always none. -/
def findNextState (func : PyCallable) : Option PodcastState :=
  (nextStageItems.find? (fun e => e.2 == func)).map (fun e => e.1)

/-- The wrapper produced by the podcast_stage decorator (podcast.py lines 120
to 139). It looks up the method mapped to the current state (KeyError when
the state is STITCHED), skips the call when that method differs from func
and no rework is in progress, and otherwise runs the body; afterwards it
assigns the state found by findNextState, keeping the old state when the
search yields none. Body errors are printed and re-raised, leaving every
mutation made by the body in place. -/
def podcastStage (m : StageMethod) (body : Podcast → Podcast × Option PyErr)
    (p : Podcast) : Podcast × Option PyErr :=
  match lookupNextMethod p.state with
  | none => (p, some .keyError)
  | some currentMethod =>
    if currentMethod ≠ PyCallable.rawFunction m ∧ p.reworking = false then
      (p, none)
    else
      match body p with
      | (pAfter, some e) => (pAfter, some e)
      | (pAfter, none) =>
        ({ pAfter with state := (findNextState (PyCallable.rawFunction m)).getD pAfter.state },
         none)

/-- External collaborators of the core, as consumed by one Podcast run:
llm is LLMBackend.generate_text; tts is TTSBackend.text_to_speech returning
the path of the produced audio file; decode is pydub from_file returning the
decoded length in ms of a file; order is the completion order of the
submitted per-segment synthesis futures, as indices into the submitted list
(the scheduler oracle for the concurrent fan-out). -/
structure Env where
  llm : String → List (String × String)
  tts : String → String → Except PyErr String
  decode : String → Except PyErr Nat
  order : List Nat

/-- Podcast._sync_text_to_speech (podcast.py lines 225 to 229); the async
variant _async_text_to_speech (lines 219 to 223) performs the same calls and
produces the same value. -/
def syncTextToSpeech (env : Env) (seg : TranscriptSegment) : Except PyErr AudioSegment :=
  match env.tts seg.text seg.speaker with
  | .error e => .error e
  | .ok path =>
    match env.decode path with
    | .error e => .error e
    | .ok len => .ok { filepath := path, lengthMs := len, transcriptSegment := some seg }

/-- Body of Podcast.build_transcript (podcast.py lines 211 to 217): one call
to the generation backend, mapped 1:1 and in order into fresh
TranscriptSegment objects with empty tts_args; fresh object identities are
modelled by enumerated uids. -/
def buildTranscriptBody (env : Env) (p : Podcast) : Podcast × Option PyErr :=
  let generated := env.llm p.content
  let segments := generated.enum.map (fun e =>
    { text := e.2.2, speaker := e.2.1, ttsArgs := [], uid := e.1 : TranscriptSegment })
  ({ p with transcript := some { segments := segments, metadata := [("source", "Generated content")] } },
   none)

/-- Key used by the sort on podcast.py line 260:
self.transcript.segments.index(x.transcript_segment), with index comparing
by object identity (uid). Out-of-list values map to segs.length; the
faithful error behaviour of index is carried by indexOfSegment below and the
theorems only evaluate sortKey where indexOfSegment succeeds. -/
def sortKey (segs : List TranscriptSegment) (x : AudioSegment) : Nat :=
  match x.transcriptSegment with
  | none => segs.length
  | some s => segs.findIdx (fun t => t.uid == s.uid)

/-- The list.index call underlying the sort key: ValueError when the clip
has no source segment or its object identity does not occur in the
transcript segment list. -/
def indexOfSegment (segs : List TranscriptSegment) (x : AudioSegment) : Except PyErr Nat :=
  match x.transcriptSegment with
  | none => .error (.valueError "x not in list")
  | some s =>
    if segs.findIdx (fun t => t.uid == s.uid) < segs.length then
      .ok (segs.findIdx (fun t => t.uid == s.uid))
    else
      .error (.valueError "x not in list")

/-- First key error of the sort on podcast.py line 260. CPython computes all
sort keys before reordering, so a failing key raises before the list is
permuted. -/
def firstKeyError (segs : List TranscriptSegment) : List AudioSegment → Option PyErr
  | [] => none
  | c :: rest =>
    match indexOfSegment segs c with
    | .error e => some e
    | .ok _ => firstKeyError segs rest

/-- The stable sort self.audio_segments.sort(key=...) on podcast.py line 260,
using insertion sort (stable, like the CPython list sort) over the
transcript-position key. -/
def sortAudioSegments (segs : List TranscriptSegment) (clips : List AudioSegment) :
    Except PyErr (List AudioSegment) :=
  match firstKeyError segs clips with
  | some e => .error e
  | none => .ok (clips.insertionSort (fun a b => sortKey segs a ≤ sortKey segs b))

/-- Collection loop of the threaded branch (podcast.py lines 252 to 257):
as_completed yields the submitted futures in completion order (the indices
in order); each result is appended to self.audio_segments, and the first
failing future.result() call raises, leaving the clips appended so far in
place. Indices that denote no submitted future cannot occur (one future is
submitted per transcript segment). -/
def collectCompletedSync (env : Env) (segs : List TranscriptSegment) :
    List Nat → List AudioSegment → List AudioSegment × Option PyErr
  | [], acc => (acc, none)
  | i :: rest, acc =>
    match segs[i]? with
    | none => (acc, some (.valueError "no such future"))
    | some seg =>
      match syncTextToSpeech env seg with
      | .error e => (acc, some e)
      | .ok clip => collectCompletedSync env segs rest (acc ++ [clip])

/-- Error raised by asyncio.gather in the async branch (podcast.py lines 237
to 250): the earliest failure in completion order, if any; when gather
raises, the assignment to self.audio_segments does not happen. -/
def firstAsyncError (env : Env) (segs : List TranscriptSegment) : List Nat → Option PyErr
  | [] => none
  | i :: rest =>
    match segs[i]? with
    | none => firstAsyncError env segs rest
    | some seg =>
      match syncTextToSpeech env seg with
      | .error e => some e
      | .ok _ => firstAsyncError env segs rest

/-- Sequential evaluation of a list of fallible calls, first error raised,
as done by asyncio.gather result collection (task order) and by the list
comprehension in stitch_audio_segments. -/
def listMapE (g : α → Except PyErr β) : List α → Except PyErr (List β)
  | [] => .ok []
  | x :: xs =>
    match g x with
    | .error e => .error e
    | .ok y =>
      match listMapE g xs with
      | .error e => .error e
      | .ok ys => .ok (y :: ys)

/-- Body of Podcast.build_audio_segments (podcast.py lines 232 to 260).
The n_jobs value (argument or default) only caps how many synthesis calls
are in flight; it affects neither the produced values nor the modelled
completion order, so it is computed and not otherwise used. The async branch
(gather keeps task order) and the threaded branch (completion order, partial
list on failure) are both embedded, selected by the cached has_sync_and_async
flag as on line 236; both end with the stable sort by transcript position. -/
def buildAudioSegmentsBody (env : Env) (nJobs : Option Int) (p : Podcast) :
    Podcast × Option PyErr :=
  let _usedNJobs : Int := nJobs.getD p.defaultTtsNJobs
  match p.transcript with
  | none => (p, some (.attributeError "NoneType has no attribute segments"))
  | some t =>
    if p.ttsHasAsync then
      match firstAsyncError env t.segments env.order with
      | some e => (p, some e)
      | none =>
        match listMapE (syncTextToSpeech env) t.segments with
        | .error e => (p, some e)
        | .ok clips =>
          match sortAudioSegments t.segments clips with
          | .error e => ({ p with audioSegments := clips }, some e)
          | .ok sorted => ({ p with audioSegments := sorted }, none)
    else
      match collectCompletedSync env t.segments env.order [] with
      | (clips, some e) => ({ p with audioSegments := clips }, some e)
      | (clips, none) =>
        match sortAudioSegments t.segments clips with
        | .error e => ({ p with audioSegments := clips }, some e)
        | .ok sorted => ({ p with audioSegments := sorted }, none)

/-- The AudioSegment.audio property (podcast.py lines 109 to 117): decode the
file and raise ValueError when the decoded length differs from length_ms. -/
def audioProp (env : Env) (clip : AudioSegment) : Except PyErr PyAudio :=
  match env.decode clip.filepath with
  | .error e => .error e
  | .ok ms =>
    if ms = clip.lengthMs then .ok (.pydub ms)
    else .error (.valueError "Audio file length does not match specified length")

/-- Python sum over a list of pydub segments, starting from the integer 0;
the pydub radd hook turns 0 + seg into seg and seg + seg concatenates, so a
pyInt accumulator only occurs before the first element. -/
def pySum (l : List PyAudio) : PyAudio :=
  l.foldl (fun acc a =>
    match acc, a with
    | .pyInt _, x => x
    | .pydub m, .pydub n => .pydub (m + n)
    | .pydub m, .pyInt _ => .pydub m) (.pyInt 0)

/-- Body of Podcast.stitch_audio_segments (podcast.py lines 263 to 265):
self.audio = sum([segment.audio for segment in self.audio_segments]). The
comprehension loads each clip left to right, raising on the first failure
before the assignment; on success the sum of an empty list is the Python
integer 0. -/
def stitchBody (env : Env) (p : Podcast) : Podcast × Option PyErr :=
  match listMapE (audioProp env) p.audioSegments with
  | .error e => (p, some e)
  | .ok audios => ({ p with audio := some (pySum audios) }, none)

/-- Podcast.build_transcript with its podcast_stage wrapper. -/
def build_transcript (env : Env) : Podcast → Podcast × Option PyErr :=
  podcastStage .buildTranscriptM (buildTranscriptBody env)

/-- Podcast.build_audio_segments with its podcast_stage wrapper. -/
def build_audio_segments (env : Env) (nJobs : Option Int) : Podcast → Podcast × Option PyErr :=
  podcastStage .buildAudioSegmentsM (buildAudioSegmentsBody env nJobs)

/-- Podcast.stitch_audio_segments with its podcast_stage wrapper. -/
def stitch_audio_segments (env : Env) : Podcast → Podcast × Option PyErr :=
  podcastStage .stitchAudioSegmentsM (stitchBody env)

/-- Invocation of one named stage method on a podcast object. -/
def callStageMethod (env : Env) (nJobs : Option Int) :
    StageMethod → Podcast → Podcast × Option PyErr
  | .buildTranscriptM => build_transcript env
  | .buildAudioSegmentsM => build_audio_segments env nJobs
  | .stitchAudioSegmentsM => stitch_audio_segments env

/-- The undecorated body of one named stage method, as run by the wrapper
when the guard lets the call through. -/
def stageBody (env : Env) (nJobs : Option Int) :
    StageMethod → Podcast → Podcast × Option PyErr
  | .buildTranscriptM => buildTranscriptBody env
  | .buildAudioSegmentsM => buildAudioSegmentsBody env nJobs
  | .stitchAudioSegmentsM => stitchBody env

/-- Podcast.reset_to_state (podcast.py lines 183 to 188): set the state and
clear each field whose presence the target state no longer implies. -/
def resetToState (target : PodcastState) (p : Podcast) : Podcast :=
  { p with
    state := target
    transcript := if target.value < PodcastState.TRANSCRIPT_BUILT.value then none else p.transcript
    audioSegments := if target.value < PodcastState.AUDIO_SEGMENTS_BUILT.value then [] else p.audioSegments
    audio := if target.value < PodcastState.STITCHED.value then none else p.audio }

/-- The call next_method() inside Podcast._build_next_stage (podcast.py lines
272 to 273): look up the bound method for the current state and invoke it
with no arguments (n_jobs defaults to None). -/
def callNextMethod (env : Env) (p : Podcast) : Podcast × Option PyErr :=
  match lookupNextMethod p.state with
  | some (.boundMethod m) => callStageMethod env none m p
  | _ => (p, some .keyError)

/-- Podcast._build_next_stage (podcast.py lines 267 to 274): False without
calling anything when the state is STITCHED, otherwise invoke the stage
method mapped to the current state and return True. -/
def buildNextStage (env : Env) (p : Podcast) : (Podcast × Option PyErr) × Bool :=
  if p.state = PodcastState.STITCHED then ((p, none), false)
  else (callNextMethod env p, true)

/-- Podcast.finalize (podcast.py lines 276 to 279), with explicit fuel:
while _build_next_stage returns True, keep going; an error raised by a stage
call propagates out of finalize; none means the while loop did not finish
within the given fuel. -/
def finalizeFuel (env : Env) : Nat → Podcast → Option (Podcast × Option PyErr)
  | 0, _ => none
  | fuel + 1, p =>
    match buildNextStage env p with
    | (r, false) => some r
    | ((pAfter, some e), true) => some (pAfter, some e)
    | ((pAfter, none), true) => finalizeFuel env fuel pAfter

/-- Finally block of Podcast.rework (podcast.py lines 202 to 208), applied
to the outcome of the caller block (the podcast after the caller mutations
and the error the block raised, if any); the contextmanager runs it in both
cases: clear _reworking, and when the state is now earlier than at entry to
the outer operation print the advisory and, if auto_finalize, call finalize.
An error raised inside the finally block supersedes the error of the caller
block; otherwise the caller error propagates once the finally block
completes. -/
def reworkExit (env : Env) (fuel : Nat) (originalState : PodcastState) (autoFinalize : Bool) :
    Podcast × Option PyErr → Option (Podcast × Option PyErr)
  | (afterBody, err) =>
    let cleared := { afterBody with reworking := false }
    if cleared.state.value < originalState.value then
      if autoFinalize then
        match finalizeFuel env fuel cleared with
        | none => none
        | some (pFin, some e2) => some (pFin, some e2)
        | some (pFin, none) => some (pFin, err)
      else some (cleared, err)
    else some (cleared, err)

/-- Entry part of Podcast.rework (podcast.py lines 190 to 201): set the
reworking flag and rewind when the target state precedes the current one;
the caller block then runs on the rewound object, and the finally block
reworkExit is applied to its outcome whether or not it raised. -/
def reworkRunFuel (env : Env) (fuel : Nat) (target : PodcastState) (autoFinalize : Bool)
    (body : Podcast → Podcast × Option PyErr) (p : Podcast) :
    Option (Podcast × Option PyErr) :=
  let entered := { p with reworking := true }
  let rewound := if target.value < entered.state.value then resetToState target entered else entered
  reworkExit env fuel p.state autoFinalize (body rewound)

/-- Reworking flag of the podcast returned by a rework run; false when the
run diverges inside finalize. -/
def resultReworking : Option (Podcast × Option PyErr) → Bool
  | none => false
  | some (q, _) => q.reworking

/-- Podcast.save (podcast.py lines 281 to 289): ValueError unless the state
is STITCHED; then export when self.audio is truthy, else ValueError. The
file export itself is an external effect and always succeeds here. -/
def save (p : Podcast) : Podcast × Option PyErr :=
  if p.state ≠ PodcastState.STITCHED then
    (p, some (.valueError "Podcast can only be saved after audio is stitched"))
  else
    match p.audio with
    | some a =>
      if pyTruthy a then (p, none)
      else (p, some (.valueError "No stitched audio to save"))
    | none => (p, some (.valueError "No stitched audio to save"))

/-- Podcast.save_transcript (podcast.py lines 291 to 299). The guard on line
293 compares two plain enum.Enum members with the < operator, which Python
does not define for plain Enum (only IntEnum is ordered), so evaluating the
condition raises TypeError for every state before any branch is taken. -/
def save_transcript (p : Podcast) : Podcast × Option PyErr :=
  (p, some (.typeError "unorderable Enum comparison"))

/-- Podcast.__init__ (podcast.py lines 145 to 181). When default_tts_n_jobs
exceeds 1 and the TTS backend is not a coroutine-function backend, the code
executes raise logging.warning(...); logging.warning returns None and raise
None is a TypeError, so construction never completes. Otherwise the object
starts at INITIALIZED with empty fields. -/
def podcastInit (content : String) (ttsIsAsync ttsHasAsync : Bool)
    (defaultTtsNJobs : Int) : Except PyErr Podcast :=
  if defaultTtsNJobs > 1 ∧ ttsIsAsync = false then
    .error (.typeError "exceptions must derive from BaseException")
  else
    .ok { content := content
          defaultTtsNJobs := defaultTtsNJobs
          state := .INITIALIZED
          reworking := false
          transcript := none
          audioSegments := []
          audio := none
          ttsIsAsync := ttsIsAsync
          ttsHasAsync := ttsHasAsync }

/-! Concrete fixtures used by the closed theorems: the stub backends of the
usage example at the bottom of podcast.py, and podcast objects in the states
the claims talk about. -/

/-- Stub backends of the usage example: a deterministic two-line generator
and a TTS backend that always succeeds, producing 1000 ms clips. -/
def stubEnv : Env :=
  { llm := fun _ => [("Host", "Welcome to our podcast!"), ("Guest", "Thanks for having me!")]
    tts := fun text voice => .ok (text ++ "|" ++ voice)
    decode := fun _ => .ok 1000
    order := [1, 0] }

/-- Freshly constructed podcast object in state INITIALIZED. -/
def exInit : Podcast :=
  { content := "sample"
    defaultTtsNJobs := 1
    state := .INITIALIZED
    reworking := false
    transcript := none
    audioSegments := []
    audio := none
    ttsIsAsync := false
    ttsHasAsync := false }

/-- First transcript segment of the stub generator output. -/
def seg0 : TranscriptSegment := { text := "Welcome", speaker := "Host", ttsArgs := [], uid := 0 }

/-- Second transcript segment of the stub generator output. -/
def seg1 : TranscriptSegment := { text := "Thanks", speaker := "Guest", ttsArgs := [], uid := 1 }

/-- Two-segment transcript. -/
def exTranscript : Transcript :=
  { segments := [seg0, seg1], metadata := [("source", "Generated content")] }

/-- Podcast at TRANSCRIPT_BUILT inside a rework scope, about to rebuild its
audio segments. -/
def exTB : Podcast :=
  { exInit with state := .TRANSCRIPT_BUILT, reworking := true, transcript := some exTranscript }

/-- Podcast at TRANSCRIPT_BUILT outside any rework scope. -/
def exTBplain : Podcast := { exTB with reworking := false }

/-- Backend that fails on the second transcript segment and succeeds on the
first; completion order is submission order. -/
def envFail : Env :=
  { stubEnv with
    tts := fun text voice =>
      if text == "Thanks" then .error (.backendError "boom") else .ok (text ++ "|" ++ voice)
    order := [0, 1] }

/-- Clip produced for seg0 by the failing backend run. -/
def clipWelcome : AudioSegment :=
  { filepath := "Welcome|Host", lengthMs := 1000, transcriptSegment := some seg0 }

/-- Clip produced for seg1 by the stub backend. -/
def clipThanks : AudioSegment :=
  { filepath := "Thanks|Guest", lengthMs := 1000, transcriptSegment := some seg1 }

/-- Podcast at AUDIO_SEGMENTS_BUILT inside a rework scope whose clip list is
empty. -/
def exEmptyClips : Podcast :=
  { exTB with state := .AUDIO_SEGMENTS_BUILT, reworking := true, audioSegments := [] }

/-- Fully stitched podcast outside any rework scope. -/
def exStitchedGood : Podcast :=
  { exTB with
    reworking := false
    state := .STITCHED
    audioSegments := [clipWelcome, clipThanks]
    audio := some (.pydub 2000) }

/-- Segment appended by the rework caller block, a fresh object. -/
def segNew : TranscriptSegment := { text := "New", speaker := "Host", ttsArgs := [], uid := 2 }

/-- Caller block of the C5 scenario: append one segment to the transcript
and raise nothing. -/
def appendBody (q : Podcast) : Podcast × Option PyErr :=
  ({ q with transcript := q.transcript.map (fun t => { t with segments := t.segments ++ [segNew] }) },
   none)

/-- Default value handed to List.getD when spelling out list lookups whose
bound is known; never the value actually read in any theorem. -/
def defaultSegment : TranscriptSegment := { text := "", speaker := "", ttsArgs := [], uid := 0 }

/-- Environment whose TTS backend and decoder never fail: tfile names the
audio file produced for a (text, voice) pair and tlen gives the decoded
length of a file; order is the completion order of the submitted futures. -/
def allOkEnv (tfile : String → String → String) (tlen : String → Nat) (order : List Nat) : Env :=
  { llm := fun _ => []
    tts := fun text voice => .ok (tfile text voice)
    decode := fun path => .ok (tlen path)
    order := order }

/-- Clip produced for one segment by the backends of allOkEnv. -/
def allOkClip (tfile : String → String → String) (tlen : String → Nat)
    (s : TranscriptSegment) : AudioSegment :=
  { filepath := tfile s.text s.speaker
    lengthMs := tlen (tfile s.text s.speaker)
    transcriptSegment := some s }

/-! Helper lemmas about the stage wrapper and the finalize loop. -/

/-- The generator search of the wrapper never finds a state, because it
compares bound methods against the plain function. -/
theorem findNextState_rawFunction (m : StageMethod) :
    findNextState (PyCallable.rawFunction m) = none := by
  cases m <;> rfl

/-- Every state below STITCHED has a dict entry, and it is a bound method. -/
theorem lookupNextMethod_below (s : PodcastState) (hs : s ≠ PodcastState.STITCHED) :
    ∃ x, lookupNextMethod s = some (PyCallable.boundMethod x) := by
  cases s with
  | INITIALIZED => exact ⟨.buildTranscriptM, rfl⟩
  | TRANSCRIPT_BUILT => exact ⟨.buildAudioSegmentsM, rfl⟩
  | AUDIO_SEGMENTS_BUILT => exact ⟨.stitchAudioSegmentsM, rfl⟩
  | STITCHED => exact absurd rfl hs

/-- Outside a rework scope every wrapped stage call below STITCHED is
skipped without mutation or error: the guard compares a bound method with
the undecorated function, which never succeeds. -/
theorem stage_skip (m : StageMethod) (body : Podcast → Podcast × Option PyErr)
    (p : Podcast) (hrw : p.reworking = false) (hs : p.state ≠ PodcastState.STITCHED) :
    podcastStage m body p = (p, none) := by
  obtain ⟨x, hx⟩ := lookupNextMethod_below p.state hs
  unfold podcastStage
  rw [hx]
  simp [hrw]

/-- Inside a rework scope a wrapped stage call below STITCHED runs its body
and keeps the state the body left, because the post-call state search never
finds a successor state. -/
theorem stage_exec (m : StageMethod) (body : Podcast → Podcast × Option PyErr)
    (p : Podcast) (hrw : p.reworking = true) (hs : p.state ≠ PodcastState.STITCHED) :
    podcastStage m body p = body p := by
  obtain ⟨x, hx⟩ := lookupNextMethod_below p.state hs
  unfold podcastStage
  rw [hx]
  cases hb : body p with
  | mk pAfter err =>
    cases err with
    | none => simp [hrw, hb, findNextState_rawFunction]
    | some e => simp [hrw, hb]

/-- A wrapped stage call in state STITCHED raises KeyError: the dict of next
stage methods has no entry for STITCHED. -/
theorem stage_stitched (m : StageMethod) (body : Podcast → Podcast × Option PyErr)
    (p : Podcast) (hs : p.state = PodcastState.STITCHED) :
    podcastStage m body p = (p, some PyErr.keyError) := by
  unfold podcastStage
  have hx : lookupNextMethod p.state = none := by rw [hs]; rfl
  rw [hx]

/-- Outside a rework scope the stage call made by _build_next_stage below
STITCHED leaves the podcast unchanged and raises nothing. -/
theorem callNextMethod_skip (env : Env) (p : Podcast)
    (hrw : p.reworking = false) (hs : p.state ≠ PodcastState.STITCHED) :
    callNextMethod env p = (p, none) := by
  cases hst : p.state with
  | STITCHED => exact absurd hst hs
  | INITIALIZED =>
    unfold callNextMethod
    rw [hst]
    show build_transcript env p = (p, none)
    exact stage_skip _ _ _ hrw hs
  | TRANSCRIPT_BUILT =>
    unfold callNextMethod
    rw [hst]
    show build_audio_segments env none p = (p, none)
    exact stage_skip _ _ _ hrw hs
  | AUDIO_SEGMENTS_BUILT =>
    unfold callNextMethod
    rw [hst]
    show stitch_audio_segments env p = (p, none)
    exact stage_skip _ _ _ hrw hs

/-- Podcast freshly rewound to TRANSCRIPT_BUILT with the appended segment,
after the finally block cleared the reworking flag: the object on which the
automatic finalize call of the C5 scenario runs. -/
def exAfterRework : Podcast :=
  { exInit with
    state := .TRANSCRIPT_BUILT
    transcript := some { segments := [seg0, seg1, segNew], metadata := [("source", "Generated content")] } }

/-- Outside a rework scope, finalize never terminates from a state below
STITCHED: every stage call it makes is skipped by the wrapper guard, so the
state never advances and _build_next_stage keeps returning True. -/
theorem finalize_stuck (env : Env) (p : Podcast)
    (hrw : p.reworking = false) (hs : p.state ≠ PodcastState.STITCHED) :
    ∀ fuel, finalizeFuel env fuel p = none := by
  intro fuel
  induction fuel with
  | zero => rfl
  | succ n ih =>
    simp only [finalizeFuel, buildNextStage, if_neg hs, callNextMethod_skip env p hrw hs]
    exact ih

/-- Outside a rework scope, finalize either diverges or returns the very
same podcast object: no stage body ever runs. -/
theorem finalize_keeps_object (env : Env) (p : Podcast) (hrw : p.reworking = false) :
    ∀ fuel, finalizeFuel env fuel p = none ∨ ∃ e, finalizeFuel env fuel p = some (p, e) := by
  intro fuel
  by_cases hs : p.state = PodcastState.STITCHED
  · cases fuel with
    | zero => exact Or.inl rfl
    | succ n =>
      right
      exact ⟨none, by simp [finalizeFuel, buildNextStage, hs]⟩
  · exact Or.inl (finalize_stuck env p hrw hs fuel)

/-- A finalize call on a podcast whose reworking flag is clear returns a
podcast whose reworking flag is clear (or no podcast at all). -/
theorem finalize_resultReworking (env : Env) (fuel : Nat) (p : Podcast)
    (hrw : p.reworking = false) :
    resultReworking (finalizeFuel env fuel p) = false := by
  rcases finalize_keeps_object env p hrw fuel with h | ⟨e, h⟩
  · rw [h]; rfl
  · rw [h]; exact hrw

/-- C1: the claim states that finalize terminates in state STITCHED whenever
the stage functions succeed, and is a no-op at STITCHED. The second half
holds: at STITCHED, finalize returns at once and _build_next_stage performs
no stage work. The first half is false on the code: from INITIALIZED with
stub backends that always succeed, finalize never terminates for any fuel,
because the wrapper guard compares a bound method with the undecorated
function, never matches, skips every stage call, and the state never
advances. -/
theorem C1_finalize_termination :
    (∀ fuel, finalizeFuel stubEnv fuel exInit = none)
    ∧ (∀ fuel, finalizeFuel stubEnv (fuel + 1) exStitchedGood = some (exStitchedGood, none))
    ∧ buildNextStage stubEnv exStitchedGood = ((exStitchedGood, none), false) := by
  exact ⟨fun fuel => finalize_stuck stubEnv exInit rfl (by decide) fuel, fun fuel => rfl, rfl⟩

/-- C2: the claim states that build_transcript on an INITIALIZED podcast
stores the generated transcript and moves the state to TRANSCRIPT_BUILT. On
the code the call is skipped by the wrapper guard: the podcast is returned
unchanged, with no transcript and state still INITIALIZED. -/
theorem C2_buildTranscript_skipped :
    build_transcript stubEnv exInit = (exInit, none)
    ∧ exInit.transcript = none
    ∧ exInit.state = PodcastState.INITIALIZED :=
  ⟨rfl, rfl, rfl⟩

/-- C5: the claim states that rework(TRANSCRIPT_BUILT) from STITCHED,
appending one segment and finalizing, yields N + 1 clips at STITCHED. On
the code the scope never returns: the rewind leaves the state at
TRANSCRIPT_BUILT, so the finally block calls finalize, which never
terminates for any fuel because every stage call is skipped by the wrapper
guard. -/
theorem C5_rework_roundtrip_diverges :
    ∀ fuel,
      reworkRunFuel stubEnv fuel PodcastState.TRANSCRIPT_BUILT true appendBody exStitchedGood
        = none := by
  intro fuel
  have h1 : reworkRunFuel stubEnv fuel PodcastState.TRANSCRIPT_BUILT true appendBody exStitchedGood
      = (match finalizeFuel stubEnv fuel exAfterRework with
         | none => none
         | some (pFin, some e2) => some (pFin, some e2)
         | some (pFin, none) => some (pFin, none)) := rfl
  rw [h1, finalize_stuck stubEnv exAfterRework rfl (by decide) fuel]

/-- C6: for every rework scope, every caller block (one that raises
included) and every entry state, the exit logic runs: the run is exactly
reworkExit applied to the outcome of the block, and any podcast the run
returns has its reworking flag cleared. -/
theorem C6_rework_exit_always_runs (env : Env) (fuel : Nat) (target : PodcastState)
    (autoFinalize : Bool) (body : Podcast → Podcast × Option PyErr) (p : Podcast) :
    reworkRunFuel env fuel target autoFinalize body p =
      reworkExit env fuel p.state autoFinalize
        (body (if target.value < p.state.value
               then resetToState target { p with reworking := true }
               else { p with reworking := true }))
    ∧ resultReworking (reworkRunFuel env fuel target autoFinalize body p) = false := by
  refine ⟨rfl, ?_⟩
  show resultReworking (reworkExit env fuel p.state autoFinalize _) = false
  generalize body _ = outcome
  obtain ⟨afterBody, err⟩ := outcome
  show resultReworking
      (let cleared := { afterBody with reworking := false }
       if cleared.state.value < p.state.value then
         if autoFinalize then
           match finalizeFuel env fuel cleared with
           | none => none
           | some (pFin, some e2) => some (pFin, some e2)
           | some (pFin, none) => some (pFin, err)
         else some (cleared, err)
       else some (cleared, err)) = false
  by_cases hlt : ({ afterBody with reworking := false } : Podcast).state.value < p.state.value
  · rw [if_pos hlt]
    cases autoFinalize with
    | false => rfl
    | true =>
      rw [if_pos rfl]
      rcases finalize_keeps_object env { afterBody with reworking := false } rfl fuel with h | ⟨e, h⟩
      · rw [h]
        rfl
      · rw [h]
        cases e with
        | none => rfl
        | some e2 => rfl
  · rw [if_neg hlt]
    rfl

/-- In a segment list with distinct identities, list.index by identity
recovers the position of the i-th element. -/
theorem findIdx_uid_getElem (segs : List TranscriptSegment)
    (hnd : (segs.map (fun s => s.uid)).Nodup) (i : Nat) (hi : i < segs.length) :
    segs.findIdx (fun t => t.uid == segs[i].uid) = i := by
  induction segs generalizing i with
  | nil => simp at hi
  | cons a l ih =>
    rw [List.map_cons, List.nodup_cons] at hnd
    obtain ⟨ha, hl⟩ := hnd
    cases i with
    | zero => simp [List.findIdx_cons]
    | succ j =>
      have hj : j < l.length := Nat.lt_of_succ_lt_succ hi
      have hmem : (l[j]).uid ∈ l.map (fun s => s.uid) :=
        List.mem_map_of_mem _ (List.getElem_mem hj)
      have hne : (a.uid == (l[j]).uid) = false := by
        rw [beq_eq_false_iff_ne]
        intro h
        exact ha (h ▸ hmem)
      simp [List.findIdx_cons, hne, ih hl j hj]

/-- Re-sorting by transcript position: when the transcript segments have
distinct identities and the clip list is a permutation of one clip per
segment, each clip pointing back at its own segment, the stable sort keyed
by list.index restores exactly transcript order. -/
theorem sortAudioSegments_perm (segs : List TranscriptSegment)
    (hnd : (segs.map (fun s => s.uid)).Nodup)
    (mk : TranscriptSegment → AudioSegment)
    (hmk : ∀ s, (mk s).transcriptSegment = some s)
    (clips : List AudioSegment) (hperm : clips.Perm (segs.map mk)) :
    sortAudioSegments segs clips = .ok (segs.map mk) := by
  have hkey : ∀ (i : Nat) (hi : i < segs.length), sortKey segs (mk segs[i]) = i := by
    intro i hi
    simp only [sortKey, hmk]
    exact findIdx_uid_getElem segs hnd i hi
  haveI : IsTotal AudioSegment (fun a b => sortKey segs a ≤ sortKey segs b) :=
    ⟨fun a b => Nat.le_total _ _⟩
  haveI : IsTrans AudioSegment (fun a b => sortKey segs a ≤ sortKey segs b) :=
    ⟨fun a b c hab hbc => Nat.le_trans hab hbc⟩
  haveI : IsAntisymm AudioSegment (fun a b => sortKey segs a < sortKey segs b) :=
    ⟨fun a b h1 h2 => absurd (Nat.lt_trans h1 h2) (Nat.lt_irrefl _)⟩
  have hsorted := List.sorted_insertionSort (fun a b => sortKey segs a ≤ sortKey segs b) clips
  have hpermSort := List.perm_insertionSort (fun a b => sortKey segs a ≤ sortKey segs b) clips
  have hmapkey : (segs.map mk).map (sortKey segs) = List.range segs.length := by
    apply List.ext_getElem
    · simp
    · intro n h1 h2
      have hn : n < segs.length := by simpa using h1
      simp only [List.getElem_map, List.getElem_range]
      exact hkey n hn
  have hnodupClips : (clips.map (sortKey segs)).Nodup := by
    have hck : (clips.map (sortKey segs)).Perm (List.range segs.length) := by
      rw [← hmapkey]
      exact hperm.map (sortKey segs)
    exact hck.symm.nodup (List.nodup_range segs.length)
  have hnodupSorted :
      ((List.insertionSort (fun a b => sortKey segs a ≤ sortKey segs b) clips).map
        (sortKey segs)).Nodup :=
    (hpermSort.map (sortKey segs)).symm.nodup hnodupClips
  have hstrict : List.Sorted (fun a b => sortKey segs a < sortKey segs b)
      (List.insertionSort (fun a b => sortKey segs a ≤ sortKey segs b) clips) := by
    have hne : List.Pairwise (fun a b => sortKey segs a ≠ sortKey segs b)
        (List.insertionSort (fun a b => sortKey segs a ≤ sortKey segs b) clips) :=
      List.pairwise_map.mp hnodupSorted
    exact (hsorted.and hne).imp (fun h => lt_of_le_of_ne h.1 h.2)
  have hsortedTarget : List.Sorted (fun a b => sortKey segs a < sortKey segs b) (segs.map mk) := by
    refine List.pairwise_iff_getElem.mpr ?_
    intro i j hi hj hij
    have hi' : i < segs.length := by simpa using hi
    have hj' : j < segs.length := by simpa using hj
    simp only [List.getElem_map]
    rw [hkey i hi', hkey j hj']
    exact hij
  have hfinal : List.insertionSort (fun a b => sortKey segs a ≤ sortKey segs b) clips
      = segs.map mk :=
    List.eq_of_perm_of_sorted (hpermSort.trans hperm) hstrict hsortedTarget
  have hfke : ∀ (cl : List AudioSegment),
      (∀ x ∈ cl, ∃ s, x.transcriptSegment = some s ∧
        segs.findIdx (fun t => t.uid == s.uid) < segs.length) →
      firstKeyError segs cl = none := by
    intro cl
    induction cl with
    | nil => intro _; rfl
    | cons c rest ih =>
      intro h
      obtain ⟨s, hs1, hs2⟩ := h c (List.mem_cons_self c rest)
      simp only [firstKeyError, indexOfSegment, hs1, if_pos hs2]
      exact ih (fun x hx => h x (List.mem_cons_of_mem c hx))
  have hok : firstKeyError segs clips = none := by
    refine hfke clips ?_
    intro x hx
    have hx2 : x ∈ segs.map mk := hperm.mem_iff.mp hx
    obtain ⟨s, hsmem, rfl⟩ := List.mem_map.mp hx2
    obtain ⟨i, hi, rfl⟩ := List.getElem_of_mem hsmem
    refine ⟨segs[i], hmk _, ?_⟩
    rw [findIdx_uid_getElem segs hnd i hi]
    exact hi
  simp only [sortAudioSegments, hok]
  exact congrArg Except.ok hfinal

/-- Spelling of a bounded list lookup used below. -/
theorem getD_eq_of_lt (segs : List TranscriptSegment) (i : Nat) (hi : i < segs.length) :
    segs.getD i defaultSegment = segs[i] :=
  List.getD_eq_getElem segs defaultSegment hi

/-- Enumerating a list by position and reading it back is the identity. -/
theorem map_getD_range (l : List TranscriptSegment) (f : TranscriptSegment → AudioSegment) :
    (List.range l.length).map (fun i => f (l.getD i defaultSegment)) = l.map f := by
  apply List.ext_getElem
  · simp
  · intro n h1 h2
    have hn : n < l.length := by simpa using h2
    simp [List.getElem_map, List.getElem_range, List.getElem?_eq_getElem hn]

/-- The threaded collection loop appends one clip per completed future when
no synthesis call fails. -/
theorem collectCompletedSync_allOk (env : Env) (segs : List TranscriptSegment)
    (mk : TranscriptSegment → AudioSegment)
    (hok : ∀ s ∈ segs, syncTextToSpeech env s = .ok (mk s)) :
    ∀ (order : List Nat) (acc : List AudioSegment),
      (∀ i ∈ order, i < segs.length) →
      collectCompletedSync env segs order acc =
        (acc ++ order.map (fun i => mk (segs.getD i defaultSegment)), none) := by
  intro order
  induction order with
  | nil => intro acc _; simp [collectCompletedSync]
  | cons i rest ih =>
    intro acc hb
    have hi : i < segs.length := hb i (List.mem_cons_self i rest)
    have hsome : segs[i]? = some segs[i] := List.getElem?_eq_getElem hi
    simp only [collectCompletedSync, hsome, hok segs[i] (List.getElem_mem hi),
      List.map_cons, getD_eq_of_lt segs i hi]
    rw [ih (acc ++ [mk segs[i]]) (fun x hx => hb x (List.mem_cons_of_mem i hx))]
    simp

/-- The threaded collection loop stops at the first failing future in
completion order, leaving exactly the clips completed before it. -/
theorem collectCompletedSync_failAt (env : Env) (segs : List TranscriptSegment)
    (mk : Nat → AudioSegment) (e : PyErr) :
    ∀ (pre : List Nat) (j : Nat) (post : List Nat) (acc : List AudioSegment),
      (∀ i ∈ pre, ∃ s, segs[i]? = some s ∧ syncTextToSpeech env s = .ok (mk i)) →
      (∃ s, segs[j]? = some s ∧ syncTextToSpeech env s = .error e) →
      collectCompletedSync env segs (pre ++ j :: post) acc = (acc ++ pre.map mk, some e) := by
  intro pre
  induction pre with
  | nil =>
    intro j post acc _ hj
    obtain ⟨s, hs1, hs2⟩ := hj
    simp [collectCompletedSync, hs1, hs2]
  | cons i rest ih =>
    intro j post acc hpre hj
    obtain ⟨s, hs1, hs2⟩ := hpre i (List.mem_cons_self i rest)
    simp only [List.cons_append, collectCompletedSync, hs1, hs2]
    show collectCompletedSync env segs (rest ++ j :: post) (acc ++ [mk i])
        = (acc ++ List.map mk (i :: rest), some e)
    rw [ih j post (acc ++ [mk i]) (fun x hx => hpre x (List.mem_cons_of_mem i hx)) hj]
    simp

/-- asyncio.gather raises nothing when every synthesis call succeeds. -/
theorem firstAsyncError_allOk (env : Env) (segs : List TranscriptSegment)
    (mk : TranscriptSegment → AudioSegment)
    (hok : ∀ s ∈ segs, syncTextToSpeech env s = .ok (mk s)) :
    ∀ order : List Nat, firstAsyncError env segs order = none := by
  intro order
  induction order with
  | nil => rfl
  | cons i rest ih =>
    cases hsome : segs[i]? with
    | none => simp [firstAsyncError, hsome, ih]
    | some s =>
      have hmem : s ∈ segs := List.getElem?_mem hsome
      simp [firstAsyncError, hsome, hok s hmem, ih]

/-- asyncio.gather raises the earliest failure in completion order. -/
theorem firstAsyncError_failAt (env : Env) (segs : List TranscriptSegment) (e : PyErr) :
    ∀ (pre : List Nat) (j : Nat) (post : List Nat),
      (∀ i ∈ pre, ∃ s, segs[i]? = some s ∧ ∃ c, syncTextToSpeech env s = .ok c) →
      (∃ s, segs[j]? = some s ∧ syncTextToSpeech env s = .error e) →
      firstAsyncError env segs (pre ++ j :: post) = some e := by
  intro pre
  induction pre with
  | nil =>
    intro j post _ hj
    obtain ⟨s, hs1, hs2⟩ := hj
    simp [firstAsyncError, hs1, hs2]
  | cons i rest ih =>
    intro j post hpre hj
    obtain ⟨s, hs1, c, hs2⟩ := hpre i (List.mem_cons_self i rest)
    simp only [List.cons_append, firstAsyncError, hs1, hs2]
    exact ih j post (fun x hx => hpre x (List.mem_cons_of_mem i hx)) hj

/-- Sequential fallible evaluation succeeds pointwise when every call does. -/
theorem listMapE_allOk (g : α → Except PyErr β) (gv : α → β) (l : List α)
    (h : ∀ x ∈ l, g x = .ok (gv x)) : listMapE g l = .ok (l.map gv) := by
  induction l with
  | nil => rfl
  | cons x xs ih =>
    simp [listMapE, h x (List.mem_cons_self x xs),
      ih (fun y hy => h y (List.mem_cons_of_mem x hy))]

/-- C3: for every transcript whose segments are distinct objects, every
concurrency value, every backend without failures and every completion
order (a permutation of the submitted futures), a run of
build_audio_segments that actually executes its body (the guard admits it
only inside a rework scope below STITCHED) succeeds and stores exactly one
clip per segment, in transcript order, independent of the completion order;
this covers both the gather branch and the threaded branch. -/
theorem C3_buildAudioSegments_order (tfile : String → String → String)
    (tlen : String → Nat) (order : List Nat) (nJobs : Option Int)
    (p : Podcast) (t : Transcript)
    (htr : p.transcript = some t)
    (hrw : p.reworking = true)
    (hs : p.state ≠ PodcastState.STITCHED)
    (hnd : (t.segments.map (fun s => s.uid)).Nodup)
    (hperm : order.Perm (List.range t.segments.length)) :
    build_audio_segments (allOkEnv tfile tlen order) nJobs p =
      ({ p with audioSegments := t.segments.map (allOkClip tfile tlen) }, none) := by
  have hok : ∀ s ∈ t.segments,
      syncTextToSpeech (allOkEnv tfile tlen order) s = .ok (allOkClip tfile tlen s) :=
    fun s _ => rfl
  have hmk : ∀ s, (allOkClip tfile tlen s).transcriptSegment = some s := fun s => rfl
  show podcastStage .buildAudioSegmentsM
      (buildAudioSegmentsBody (allOkEnv tfile tlen order) nJobs) p = _
  rw [stage_exec _ _ p hrw hs]
  simp only [buildAudioSegmentsBody, htr]
  cases hA : p.ttsHasAsync with
  | true =>
    have hfae := firstAsyncError_allOk (allOkEnv tfile tlen order) t.segments
      (allOkClip tfile tlen) hok (allOkEnv tfile tlen order).order
    have hlm := listMapE_allOk (syncTextToSpeech (allOkEnv tfile tlen order))
      (allOkClip tfile tlen) t.segments hok
    have hsort := sortAudioSegments_perm t.segments hnd (allOkClip tfile tlen) hmk
      (t.segments.map (allOkClip tfile tlen)) (List.Perm.refl _)
    simp [hA, hfae, hlm, hsort]
  | false =>
    have hb : ∀ i ∈ order, i < t.segments.length := by
      intro i hi
      exact List.mem_range.mp (hperm.mem_iff.mp hi)
    have hcol := collectCompletedSync_allOk (allOkEnv tfile tlen order) t.segments
      (allOkClip tfile tlen) hok order [] hb
    have hclips : (order.map
        (fun i => allOkClip tfile tlen (t.segments.getD i defaultSegment))).Perm
        (t.segments.map (allOkClip tfile tlen)) := by
      have h1 := hperm.map (fun i => allOkClip tfile tlen (t.segments.getD i defaultSegment))
      rwa [map_getD_range] at h1
    have hsort := sortAudioSegments_perm t.segments hnd (allOkClip tfile tlen) hmk
      _ hclips
    rw [show (allOkEnv tfile tlen order).order = order from rfl]
    simp only [List.getD_eq_getElem?_getD] at hsort
    simp [hA, hcol, hsort]

/-- C4 amended: when at least one synthesis call fails, a run of
build_audio_segments that executes its body fails with the first failure in
completion order, re-raised unwrapped; the state is left unchanged; in the
gather branch audio_segments is also left unchanged, but in the threaded
branch audio_segments is overwritten with the partial list of clips whose
futures completed before the failing one. -/
theorem C4_buildAudioSegments_failure (env : Env) (nJobs : Option Int) (p : Podcast)
    (t : Transcript) (pre post : List Nat) (j : Nat) (e : PyErr)
    (mk : Nat → AudioSegment)
    (htr : p.transcript = some t)
    (hrw : p.reworking = true)
    (hs : p.state ≠ PodcastState.STITCHED)
    (horder : env.order = pre ++ j :: post)
    (hpre : ∀ i ∈ pre, ∃ s, t.segments[i]? = some s ∧ syncTextToSpeech env s = .ok (mk i))
    (hj : ∃ s, t.segments[j]? = some s ∧ syncTextToSpeech env s = .error e) :
    build_audio_segments env nJobs p =
      ((if p.ttsHasAsync then p else { p with audioSegments := pre.map mk }), some e) := by
  show podcastStage .buildAudioSegmentsM (buildAudioSegmentsBody env nJobs) p = _
  rw [stage_exec _ _ p hrw hs]
  simp only [buildAudioSegmentsBody, htr]
  cases hA : p.ttsHasAsync with
  | true =>
    have hfae := firstAsyncError_failAt env t.segments e pre j post
      (fun i hi => by
        obtain ⟨s, h1, h2⟩ := hpre i hi
        exact ⟨s, h1, mk i, h2⟩) hj
    rw [horder]
    simp [hA, hfae]
  | false =>
    have hcol := collectCompletedSync_failAt env t.segments mk e pre j post [] hpre hj
    rw [horder]
    simp [hA, hcol]

/-- Witness for C3: two segments, completion order reversed, no failures;
the stored clips come back in transcript order. -/
theorem C3_buildAudioSegments_order_witness :
    build_audio_segments (allOkEnv (fun a b => a ++ b) (fun _ => 3) [1, 0]) none exTB
      = ({ exTB with
            audioSegments := exTranscript.segments.map (allOkClip (fun a b => a ++ b) (fun _ => 3)) },
         none) :=
  C3_buildAudioSegments_order (fun a b => a ++ b) (fun _ => 3) [1, 0] none exTB exTranscript
    rfl rfl (by decide) (by decide) (by decide)

/-- Counterexample for C4 as stated: with a blocking backend whose call for
the second segment fails after the first completed, the failed run leaves a
nonempty partial clip list stored in audio_segments, where the claim says the
field is left unset. -/
theorem C4_counterexample :
    build_audio_segments envFail none exTB
      = ({ exTB with audioSegments := [clipWelcome] }, some (PyErr.backendError "boom"))
    ∧ exTB.audioSegments = [] := by
  exact ⟨by decide, rfl⟩

/-- Witness for C4 amended: the same failing run, obtained from the general
statement. -/
theorem C4_buildAudioSegments_failure_witness :
    build_audio_segments envFail none exTB
      = ((if exTB.ttsHasAsync then exTB
          else { exTB with audioSegments := [0].map (fun _ => clipWelcome) }),
         some (PyErr.backendError "boom")) :=
  C4_buildAudioSegments_failure envFail none exTB exTranscript [0] [] 1
    (PyErr.backendError "boom") (fun _ => clipWelcome) rfl rfl (by decide) rfl
    (fun i hi => by
      rw [List.mem_singleton] at hi
      subst hi
      exact ⟨seg0, rfl, rfl⟩)
    ⟨seg1, rfl, rfl⟩

/-- C7 amended: below STITCHED and outside a rework scope, calling a stage
function that is not the one mapped to the current state is a reported
no-op with no mutation and no error; below STITCHED and inside a rework
scope the guard is suppressed and the called stage body executes; in state
STITCHED every stage call raises KeyError instead, rework or not, because
the state has no mapped method. -/
theorem C7_stage_guard_cases (env : Env) (nJobs : Option Int) (m : StageMethod) (p : Podcast) :
    (p.reworking = false → p.state ≠ PodcastState.STITCHED →
      lookupNextMethod p.state ≠ some (PyCallable.boundMethod m) →
      callStageMethod env nJobs m p = (p, none))
    ∧ (p.reworking = true → p.state ≠ PodcastState.STITCHED →
      callStageMethod env nJobs m p = stageBody env nJobs m p)
    ∧ (p.state = PodcastState.STITCHED →
      callStageMethod env nJobs m p = (p, some PyErr.keyError)) := by
  refine ⟨fun h1 h2 _hnm => ?_, fun h1 h2 => ?_, fun h => ?_⟩
  · cases m
    · show podcastStage .buildTranscriptM (buildTranscriptBody env) p = (p, none)
      exact stage_skip _ _ _ h1 h2
    · show podcastStage .buildAudioSegmentsM (buildAudioSegmentsBody env nJobs) p = (p, none)
      exact stage_skip _ _ _ h1 h2
    · show podcastStage .stitchAudioSegmentsM (stitchBody env) p = (p, none)
      exact stage_skip _ _ _ h1 h2
  · cases m
    · show podcastStage .buildTranscriptM (buildTranscriptBody env) p
          = buildTranscriptBody env p
      exact stage_exec _ _ _ h1 h2
    · show podcastStage .buildAudioSegmentsM (buildAudioSegmentsBody env nJobs) p
          = buildAudioSegmentsBody env nJobs p
      exact stage_exec _ _ _ h1 h2
    · show podcastStage .stitchAudioSegmentsM (stitchBody env) p = stitchBody env p
      exact stage_exec _ _ _ h1 h2
  · cases m
    · show podcastStage .buildTranscriptM (buildTranscriptBody env) p
          = (p, some PyErr.keyError)
      exact stage_stitched _ _ _ h
    · show podcastStage .buildAudioSegmentsM (buildAudioSegmentsBody env nJobs) p
          = (p, some PyErr.keyError)
      exact stage_stitched _ _ _ h
    · show podcastStage .stitchAudioSegmentsM (stitchBody env) p = (p, some PyErr.keyError)
      exact stage_stitched _ _ _ h

/-- Witness for C7: a non-mapped call skipped at INITIALIZED, an executing
call inside rework, and the KeyError at STITCHED. -/
theorem C7_stage_guard_cases_witness :
    callStageMethod stubEnv none StageMethod.buildAudioSegmentsM exInit = (exInit, none)
    ∧ callStageMethod stubEnv none StageMethod.stitchAudioSegmentsM exEmptyClips
        = stageBody stubEnv none StageMethod.stitchAudioSegmentsM exEmptyClips
    ∧ callStageMethod stubEnv none StageMethod.buildTranscriptM exStitchedGood
        = (exStitchedGood, some PyErr.keyError) :=
  ⟨(C7_stage_guard_cases stubEnv none StageMethod.buildAudioSegmentsM exInit).1
      rfl (by decide) (by decide),
   (C7_stage_guard_cases stubEnv none StageMethod.stitchAudioSegmentsM exEmptyClips).2.1
      rfl (by decide),
   (C7_stage_guard_cases stubEnv none StageMethod.buildTranscriptM exStitchedGood).2.2 rfl⟩

/-- Counterexample for C7 as stated: at STITCHED no function is mapped to
the current state, yet calling build_audio_segments outside a rework scope
raises KeyError rather than being a reported no-op. -/
theorem C7_counterexample :
    callStageMethod stubEnv none StageMethod.buildAudioSegmentsM exStitchedGood
      = (exStitchedGood, some PyErr.keyError)
    ∧ exStitchedGood.reworking = false := ⟨rfl, rfl⟩

/-- C8 amended: stitching an empty clip list raises nothing. Outside a
rework scope the call is skipped by the guard; inside one, the body runs,
sum of the empty list is the Python integer 0 and it is stored in audio;
in neither case is an error raised or STITCHED reached. -/
theorem C8_stitch_empty_no_error (env : Env) (p : Podcast) :
    (p.reworking = false → p.state = PodcastState.AUDIO_SEGMENTS_BUILT →
      stitch_audio_segments env p = (p, none))
    ∧ (p.reworking = true → p.state ≠ PodcastState.STITCHED → p.audioSegments = [] →
      stitch_audio_segments env p = ({ p with audio := some (PyAudio.pyInt 0) }, none)) := by
  constructor
  · intro h1 h2
    refine stage_skip _ _ _ h1 ?_
    rw [h2]
    intro hh
    exact PodcastState.noConfusion hh
  · intro h1 h2 h3
    show podcastStage .stitchAudioSegmentsM (stitchBody env) p = _
    rw [stage_exec _ _ p h1 h2]
    simp [stitchBody, h3, listMapE, pySum]

/-- Witness for C8 amended: concrete empty-clip stitch inside rework. -/
theorem C8_stitch_empty_no_error_witness :
    stitch_audio_segments stubEnv exEmptyClips
      = ({ exEmptyClips with audio := some (PyAudio.pyInt 0) }, none) :=
  (C8_stitch_empty_no_error stubEnv exEmptyClips).2 rfl (by decide) rfl

/-- Counterexample for C8 as stated: the concrete empty-clip stitch raises
no error, stores the integer 0 and does not reach STITCHED. -/
theorem C8_counterexample :
    (stitch_audio_segments stubEnv exEmptyClips).2 = none
    ∧ (stitch_audio_segments stubEnv exEmptyClips).1.state ≠ PodcastState.STITCHED
    ∧ (stitch_audio_segments stubEnv exEmptyClips).1.audio = some (PyAudio.pyInt 0) := by
  refine ⟨rfl, by decide, rfl⟩

/-- C9: the claim states save raises exactly outside STITCHED and
save_transcript raises exactly below TRANSCRIPT_BUILT, each succeeding in
the permitted states. On the code save does guard on STITCHED (succeeding
there when stitched audio is present, raising ValueError elsewhere), but
save_transcript raises TypeError for every state: its guard compares two
plain Enum members with the < operator, which Python leaves undefined. -/
theorem C9_save_guards :
    (∀ p : Podcast, save_transcript p = (p, some (PyErr.typeError "unorderable Enum comparison")))
    ∧ save exStitchedGood = (exStitchedGood, none)
    ∧ save exTBplain
        = (exTBplain, some (PyErr.valueError "Podcast can only be saved after audio is stitched")) :=
  ⟨fun _q => rfl, rfl, rfl⟩

/-- C10: with default_tts_n_jobs above 1 and a blocking TTS backend the
constructor executes raise logging.warning(...), hence raises and never
completes; with default_tts_n_jobs equal to 1 or a coroutine backend it
completes in state INITIALIZED with empty fields. -/
theorem C10_init_raises (content : String) (ttsIsAsync ttsHasAsync : Bool) (n : Int) :
    (n > 1 → ttsIsAsync = false →
      podcastInit content ttsIsAsync ttsHasAsync n
        = .error (.typeError "exceptions must derive from BaseException"))
    ∧ (n = 1 ∨ ttsIsAsync = true →
      podcastInit content ttsIsAsync ttsHasAsync n
        = .ok { content := content
                defaultTtsNJobs := n
                state := .INITIALIZED
                reworking := false
                transcript := none
                audioSegments := []
                audio := none
                ttsIsAsync := ttsIsAsync
                ttsHasAsync := ttsHasAsync }) := by
  constructor
  · intro h1 h2
    simp [podcastInit, h1, h2]
  · intro h
    unfold podcastInit
    rw [if_neg ?hcond]
    case hcond =>
      rintro ⟨hgt, hfalse⟩
      rcases h with h | h
      · rw [h] at hgt
        exact absurd hgt (by decide)
      · rw [h] at hfalse
        cases hfalse

/-- Witness for C10: a blocking backend with two jobs raises; a coroutine
backend with two jobs constructs fine. -/
theorem C10_init_raises_witness :
    podcastInit "c" false false 2
      = .error (.typeError "exceptions must derive from BaseException")
    ∧ podcastInit "c" true false 2
        = .ok { content := "c"
                defaultTtsNJobs := 2
                state := .INITIALIZED
                reworking := false
                transcript := none
                audioSegments := []
                audio := none
                ttsIsAsync := true
                ttsHasAsync := false } :=
  ⟨(C10_init_raises "c" false false 2).1 (by decide) rfl,
   (C10_init_raises "c" true false 2).2 (Or.inr rfl)⟩
